import Mathlib

/-!
Verification of the `pysupercluster` binding (src/src/lib.rs).

The repository is a small pyo3 binding that forwards to the external
`supercluster` crate.  The binding code (constructor, `load`, `get_clusters`,
`get_cluster_expansion_zoom`, `json_to_pyobject`) is embedded here directly
from `src/src/lib.rs`.  The inner engine (the `supercluster` crate) and the
external `serde_json` parser are not part of this repository's sources; where
a claim needs them they are modelled from the specification, and each such
definition says so in its doc comment.

Python values are modelled by the inductive `PyVal`; Rust `f64` values are
modelled by `ℚ` (the binding performs no arithmetic on them, it only copies
them, so exact rationals are a faithful carrier for the properties settled
here).
-/

/-- Python exception produced by a failing binding operation (`PyResult` error
side in the source). -/
inductive PyErr where
  | keyError (k : String)
  | typeError (msg : String)
  | indexError
  | valueError (msg : String)

/-- Model of the Python objects the binding manipulates.  Dict keys are
strings, which covers every record shape the binding reads. -/
inductive PyVal where
  | none
  | bool (b : Bool)
  | int (n : Int)
  | float (q : ℚ)
  | str (s : String)
  | list (xs : List PyVal)
  | dict (xs : List (String × PyVal))

/-- Decides whether an `Except` computation succeeded. -/
def isOkE {ε α : Type} : Except ε α → Bool
  | Except.ok _ => true
  | Except.error _ => false

/-- The single-quote character, written via its code point. -/
def squoteChar : Char := Char.ofNat 39

/-- The single-quote character as a one-character string. -/
def squote : String := String.singleton squoteChar

/-- Python `repr` of a string: wrapped in single quotes, except that a string
containing a single quote and no double quote is wrapped in double quotes
(CPython's rule).  Escape sequences inside the string are not modelled; the
records used in the theorems below stay away from strings holding both kinds
of quotes. -/
def pyStrRepr (s : String) : String :=
  if s.data.contains squoteChar && !(s.data.contains '"') then "\"" ++ s ++ "\""
  else squote ++ s ++ squote

/-- Model of Rust `str::replace` as called on line 58 of lib.rs, where both
the pattern (a single quote) and the replacement (a double quote) are single
characters: every occurrence of the single-quote character is replaced by a
double quote. -/
def replaceQuotes (s : String) : String :=
  String.mk (s.data.map fun c => if c = squoteChar then '"' else c)

/-- Python `str`/`repr` of a float.  CPython prints a decimal expansion; the
exact text is irrelevant to every claim settled here (no settled claim puts a
float inside a properties payload), so the rational is printed directly. -/
def pyFloatRepr (q : ℚ) : String := toString q

mutual

/-- Python `str()` of a value, as invoked by the source's
`properties_any.to_string()` (line 58 of lib.rs): `None`/`True`/`False`
keywords, decimal integers, quoted strings, `[...]` lists and
`\x7b'k': v, ...\x7d` dicts. -/
def pyRepr : PyVal → String
  | PyVal.none => "None"
  | PyVal.bool true => "True"
  | PyVal.bool false => "False"
  | PyVal.int n => toString n
  | PyVal.float q => pyFloatRepr q
  | PyVal.str s => pyStrRepr s
  | PyVal.list xs => "[" ++ String.intercalate ", " (pyReprList xs) ++ "]"
  | PyVal.dict xs => "\x7b" ++ String.intercalate ", " (pyReprDict xs) ++ "\x7d"

def pyReprList : List PyVal → List String
  | [] => []
  | v :: vs => pyRepr v :: pyReprList vs

def pyReprDict : List (String × PyVal) → List String
  | [] => []
  | kv :: vs => (pyStrRepr kv.1 ++ ": " ++ pyRepr kv.2) :: pyReprDict vs

end

/-- JSON value as produced by `serde_json`.  A number carries a flag telling
whether its source text was in integer form, mirroring `serde_json`'s
distinction between integer and floating numbers (`as_i64` succeeds only on
the former). -/
inductive Json where
  | null
  | bool (b : Bool)
  | num (intForm : Bool) (q : ℚ)
  | str (s : String)
  | arr (xs : List Json)
  | obj (xs : List (String × Json))

/-- JSON insignificant whitespace. -/
def jsonWs (c : Char) : Bool := c = ' ' || c = '\n' || c = '\t' || c = '\r'

/-- Drop leading JSON whitespace. -/
def skipWs (cs : List Char) : List Char := cs.dropWhile jsonWs

/-- ASCII digit test. -/
def isDigitCh (c : Char) : Bool := '0' ≤ c && c ≤ '9'

/-- Decimal digits to a natural number. -/
def digitsToNat (ds : List Char) : Nat :=
  ds.foldl (fun a c => 10 * a + (c.toNat - 48)) 0

/-- JSON string escape decoding for the character after a backslash. -/
def jsonEsc (c : Char) : Char :=
  if c = 'n' then '\n' else if c = 't' then '\t' else if c = 'r' then '\r' else c

/-- Parse the remainder of a JSON string after the opening quote. -/
def parseJString : Nat → List Char → Option (String × List Char)
  | 0, _ => Option.none
  | Nat.succ fuel, cs =>
    match cs with
    | [] => Option.none
    | c :: rest =>
      if c = '"' then some ("", rest)
      else if c = '\\' then
        match rest with
        | [] => Option.none
        | e :: rest2 =>
          match parseJString fuel rest2 with
          | some (s, r) => some (String.singleton (jsonEsc e) ++ s, r)
          | Option.none => Option.none
      else
        match parseJString fuel rest with
        | some (s, r) => some (String.singleton c ++ s, r)
        | Option.none => Option.none

/-- Build the rational value of a JSON number from its sign, integer digits
and fractional digits. -/
def mkJQ (neg : Bool) (ds fs : List Char) : ℚ :=
  let m : ℚ := (digitsToNat ds : ℚ) + (digitsToNat fs : ℚ) / (10 : ℚ) ^ fs.length
  if neg then -m else m

/-- Parse a JSON number (optional minus, digits, optional fraction).  The
exponent form accepted by `serde_json` is not modelled; no claim settled here
depends on it. -/
def parseJNum (cs : List Char) : Option (Json × List Char) :=
  let sgn : Bool × List Char :=
    match cs with
    | c :: r => if c = '-' then (true, r) else (false, cs)
    | [] => (false, cs)
  let intp := sgn.2.span isDigitCh
  if intp.1.isEmpty then Option.none
  else
    match intp.2 with
    | c :: r =>
      if c = '.' then
        let frac := r.span isDigitCh
        if frac.1.isEmpty then Option.none
        else some (Json.num false (mkJQ sgn.1 intp.1 frac.1), frac.2)
      else some (Json.num true (mkJQ sgn.1 intp.1 []), intp.2)
    | [] => some (Json.num true (mkJQ sgn.1 intp.1 []), intp.2)

mutual

/-- Fueled recursive-descent parser for a JSON value, modelling
`serde_json::from_str` (the crate is an external dependency whose source is
not in this repository). -/
def parseJVal : Nat → List Char → Option (Json × List Char)
  | 0, _ => Option.none
  | Nat.succ fuel, cs =>
    match skipWs cs with
    | 'n' :: 'u' :: 'l' :: 'l' :: r => some (Json.null, r)
    | 't' :: 'r' :: 'u' :: 'e' :: r => some (Json.bool true, r)
    | 'f' :: 'a' :: 'l' :: 's' :: 'e' :: r => some (Json.bool false, r)
    | '"' :: r =>
      match parseJString (r.length + 1) r with
      | some (s, r2) => some (Json.str s, r2)
      | Option.none => Option.none
    | '[' :: r =>
      match skipWs r with
      | ']' :: r2 => some (Json.arr [], r2)
      | _ =>
        match parseJItems fuel r with
        | some (xs, r2) => some (Json.arr xs, r2)
        | Option.none => Option.none
    | '\x7b' :: r =>
      match skipWs r with
      | '\x7d' :: r2 => some (Json.obj [], r2)
      | _ =>
        match parseJFields fuel r with
        | some (fs, r2) => some (Json.obj fs, r2)
        | Option.none => Option.none
    | rest => parseJNum rest

/-- Comma-separated JSON array elements up to the closing bracket. -/
def parseJItems : Nat → List Char → Option (List Json × List Char)
  | 0, _ => Option.none
  | Nat.succ fuel, cs =>
    match parseJVal fuel cs with
    | some (v, r) =>
      match skipWs r with
      | ',' :: r2 =>
        match parseJItems fuel r2 with
        | some (vs, r3) => some (v :: vs, r3)
        | Option.none => Option.none
      | ']' :: r2 => some ([v], r2)
      | _ => Option.none
    | Option.none => Option.none

/-- Comma-separated JSON object members up to the closing brace. -/
def parseJFields : Nat → List Char → Option (List (String × Json) × List Char)
  | 0, _ => Option.none
  | Nat.succ fuel, cs =>
    match skipWs cs with
    | '"' :: r =>
      match parseJString (r.length + 1) r with
      | some (k, r2) =>
        match skipWs r2 with
        | ':' :: r3 =>
          match parseJVal fuel r3 with
          | some (v, r4) =>
            match skipWs r4 with
            | ',' :: r5 =>
              match parseJFields fuel r5 with
              | some (fs, r6) => some ((k, v) :: fs, r6)
              | Option.none => Option.none
            | '\x7d' :: r5 => some ([(k, v)], r5)
            | _ => Option.none
          | Option.none => Option.none
        | _ => Option.none
      | Option.none => Option.none
    | _ => Option.none

end

/-- Model of `serde_json::from_str::<JsonObject>` as called on line 63 of
lib.rs: the whole input must be one JSON object followed only by whitespace;
anything else is a deserialization error (`Option.none` here). -/
def parseJsonObject (s : String) : Option (List (String × Json)) :=
  match parseJVal (2 * s.length + 4) s.data with
  | some (Json.obj fields, rest) =>
    if (skipWs rest).isEmpty then some fields else Option.none
  | _ => Option.none

/-- Association-list lookup used by the dict case of `get_item`. -/
def dictLookup : List (String × PyVal) → String → Option PyVal
  | [], _ => Option.none
  | kv :: rest, key => if kv.1 = key then some kv.2 else dictLookup rest key

/-- Python `obj[key]` with a string key, as invoked by
`p_any.get_item("geometry")` etc. (lines 48-51 of lib.rs): a dict either
yields the value or raises `KeyError`; any non-dict raises `TypeError`. -/
def pyGetItem (obj : PyVal) (key : String) : Except PyErr PyVal :=
  match obj with
  | PyVal.dict xs =>
    match dictLookup xs key with
    | some v => Except.ok v
    | Option.none => Except.error (PyErr.keyError key)
  | _ => Except.error (PyErr.typeError "object is not subscriptable")

/-- `PyList::get_item(i)` (lines 54-55 of lib.rs): `IndexError` past the end
of the list. -/
def pyListGet (xs : List PyVal) (i : Nat) : Except PyErr PyVal :=
  match xs.get? i with
  | some v => Except.ok v
  | Option.none => Except.error PyErr.indexError

/-- `downcast::<PyList>()` (line 52 of lib.rs): succeeds exactly on Python
lists. -/
def pyDowncastList (v : PyVal) : Except PyErr (List PyVal) :=
  match v with
  | PyVal.list xs => Except.ok xs
  | _ => Except.error (PyErr.typeError "expected a Python list")

/-- `extract::<f64>()` (lines 54-55 of lib.rs): succeeds on Python floats,
ints and bools (a Python bool is an int), fails on anything else. -/
def pyExtractF64 (v : PyVal) : Except PyErr ℚ :=
  match v with
  | PyVal.float q => Except.ok q
  | PyVal.int n => Except.ok (n : ℚ)
  | PyVal.bool b => Except.ok (if b then 1 else 0)
  | _ => Except.error (PyErr.typeError "expected a number")

/-- The geometry value of a geojson feature as the binding distinguishes it:
a point with its coordinate list, or any other geometry kind. -/
inductive GeoValue where
  | point (coords : List ℚ)
  | other

/-- The parts of a `geojson::Feature` that lib.rs reads or writes (the
remaining fields are left at `Default::default()` on line 66 and never read
again). -/
structure GFeature where
  geometry : Option GeoValue
  properties : Option (List (String × Json))

/-- Coordinate extraction from a record's geometry, lines 51-55 of lib.rs:
`geometry["coordinates"]`, downcast to a list, then extract `f64` from index
1 (latitude) and index 0 (longitude), in that order. -/
def parseCoords (geometry : PyVal) : Except PyErr (ℚ × ℚ) :=
  match pyGetItem geometry "coordinates" with
  | Except.error e => Except.error e
  | Except.ok coords_any =>
    match pyDowncastList coords_any with
    | Except.error e => Except.error e
    | Except.ok coords =>
      match pyListGet coords 1 with
      | Except.error e => Except.error e
      | Except.ok it1 =>
        match pyExtractF64 it1 with
        | Except.error e => Except.error e
        | Except.ok latitude =>
          match pyListGet coords 0 with
          | Except.error e => Except.error e
          | Except.ok it0 =>
            match pyExtractF64 it0 with
            | Except.error e => Except.error e
            | Except.ok longitude => Except.ok (longitude, latitude)

/-- Per-record body of the `load` closure, lines 45-67 of lib.rs: read
`geometry` and `properties`, extract the coordinates, serialize the
properties with `to_string().replace(single-quote, double-quote)`, parse them
as JSON and fall back to the empty object on parse failure, and build a point
feature. -/
def parseFeature (p : PyVal) : Except PyErr GFeature :=
  match pyGetItem p "geometry" with
  | Except.error e => Except.error e
  | Except.ok geometry_any =>
    match pyGetItem p "properties" with
    | Except.error e => Except.error e
    | Except.ok properties_any =>
      match parseCoords geometry_any with
      | Except.error e => Except.error e
      | Except.ok lonlat =>
        Except.ok
          ⟨some (GeoValue.point [lonlat.1, lonlat.2]),
           some ((parseJsonObject
             (replaceQuotes (pyRepr properties_any))).getD [])⟩

/-- The `map ... collect::<PyResult<Vec<Feature>>>()?` of lines 43-69: the
first failing record aborts the whole conversion. -/
def parseFeatures : List PyVal → Except PyErr (List GFeature)
  | [] => Except.ok []
  | p :: ps =>
    match parseFeature p with
    | Except.error e => Except.error e
    | Except.ok f =>
      match parseFeatures ps with
      | Except.error e => Except.error e
      | Except.ok fs => Except.ok (f :: fs)

/-- Configuration of the inner engine, mirroring `supercluster::Options` as
filled field by field on lines 28-35 of lib.rs. -/
structure Options where
  min_zoom : Nat
  max_zoom : Nat
  min_points : Nat
  radius : ℚ
  extent : ℚ
  node_size : Nat

/-- Modelled from the spec: an entity of the cluster tree (section 3 of the
spec) — a loaded Point or a built Cluster, with projected planar coordinates,
leaf count, stable id, creation zoom, expansion pointer (id of the seed
entity one level finer) and the representative attribute payload.  The
`supercluster` crate holding the real structure is not part of this
repository's sources. -/
structure Entity where
  x : ℚ
  y : ℚ
  count : Nat
  id : Nat
  isCluster : Bool
  zoom : Nat
  expansion : Nat
  payload : List (String × Json)

/-- Placeholder entity handed to `List.getD`; every access below stays in
bounds, so it is never read. -/
def dummyEntity : Entity := ⟨0, 0, 1, 0, false, 0, 0, []⟩

/-- Modelled from the spec (section 4.1): the projector maps longitude and
latitude onto the unit square, clamping latitude first.  The x component is
the exact Web-Mercator `lon/360 + 1/2`; the y component is a monotone
rational surrogate for the transcendental Mercator latitude formula, which
has no exact rational form — no claim settled here depends on the exact y
value. -/
def project (lon lat : ℚ) : ℚ × ℚ :=
  let latC := max (-90 : ℚ) (min (90 : ℚ) lat)
  (lon / 360 + 1 / 2, 1 / 2 - latC / 180)

/-- A loaded feature as an entity: point with leaf count one, id equal to its
load index, payload from the feature.  The binding's `load` only ever builds
point features with a two-element coordinate list, so the fallback arm is
unreachable from the binding. -/
def featureToEntity (i : Nat) (f : GFeature) : Entity :=
  match f.geometry with
  | some (GeoValue.point (lon :: lat :: _)) =>
    let xy := project lon lat
    ⟨xy.1, xy.2, 1, i, false, 0, 0, f.properties.getD []⟩
  | _ => ⟨1 / 2, 1 / 2, 1, i, false, 0, 0, f.properties.getD []⟩

/-- Index the loaded features in order. -/
def featuresToEntities (fs : List GFeature) : List Entity :=
  fs.enum.map fun p => featureToEntity p.1 p.2

/-- Squared Euclidean distance in the projected space. -/
def sqDist (a b : Entity) : ℚ := (a.x - b.x) ^ 2 + (a.y - b.y) ^ 2

/-- Modelled from the spec (section 4.2 step 1): the clustering radius in
projected units at zoom `z` — `radius / (extent * 2^z)`, shrinking as zoom
grows. -/
def levelRadius (opts : Options) (z : Nat) : ℚ :=
  opts.radius / (opts.extent * (2 : ℚ) ^ z)

/-- Indices of the unvisited entities within radius `r` of `e` (the radius
query of section 4.2 step 2; `e` itself is already marked visited when this
is called). -/
def neighborIdxs (es : List Entity) (visited : List Bool) (e : Entity) (r : ℚ) :
    List Nat :=
  (List.range es.length).filter fun j =>
    !(visited.getD j true) && decide (sqDist e (es.getD j dummyEntity) ≤ r * r)

/-- Leaf-count-weighted centroid of a merge group (section 4.2 step 3). -/
def centroidOf (parts : List Entity) : ℚ × ℚ :=
  let w : ℚ := ((parts.map Entity.count).sum : Nat)
  (((parts.map fun p => (p.count : ℚ) * p.x).sum) / w,
   ((parts.map fun p => (p.count : ℚ) * p.y).sum) / w)

/-- Modelled from the spec (section 4.2 steps 2-4): greedy aggregation over
the entities of the finer level, in ascending index order, with explicit
visited flags.  A seed with at least `minPts` entities in its group (itself
included) becomes a new cluster whose centroid is the weighted mean, whose
leaf count is the group sum, whose expansion pointer is the seed, and whose
payload is the seed's (first-merged-entity policy of section 3); otherwise
the seed survives unchanged. -/
def greedyGo (r : ℚ) (minPts : Nat) (z : Nat) (es : List Entity) :
    Nat → Nat → List Bool → Nat → List Entity × Nat
  | 0, _, _, nid => ([], nid)
  | Nat.succ fuel, i, visited, nid =>
    if i < es.length then
      if visited.getD i true then greedyGo r minPts z es fuel (i + 1) visited nid
      else
        let e := es.getD i dummyEntity
        let visited1 := visited.set i true
        let nbrs := neighborIdxs es visited1 e r
        if minPts ≤ nbrs.length + 1 then
          let parts := e :: nbrs.map fun j => es.getD j dummyEntity
          let cxy := centroidOf parts
          let c : Entity :=
            ⟨cxy.1, cxy.2, (parts.map Entity.count).sum, nid, true, z, e.id,
             e.payload⟩
          let visited2 := nbrs.foldl (fun bs j => bs.set j true) visited1
          let rest := greedyGo r minPts z es fuel (i + 1) visited2 (nid + 1)
          (c :: rest.1, rest.2)
        else
          let rest := greedyGo r minPts z es fuel (i + 1) visited1 nid
          (e :: rest.1, rest.2)
    else ([], nid)

/-- One level of the build (section 4.2): greedy aggregation over the full
entity list of the level above, starting with no entity visited. -/
def buildLevel (opts : Options) (z : Nat) (nid : Nat) (es : List Entity) :
    List Entity × Nat :=
  greedyGo (levelRadius opts z) opts.min_points z es es.length 0
    (List.replicate es.length false) nid

/-- Modelled from the spec (sections 3 and 4.2): build the per-zoom levels
from `max_zoom` down to `min_zoom`; the result lists the entity set of each
zoom from `min_zoom` upward, with the raw point set appended last (the
conceptual level `max_zoom + 1`). -/
def buildLevelsGo (opts : Options) : Nat → Nat → List Entity → List (List Entity)
  | 0, _, cur => [cur]
  | Nat.succ k, nid, cur =>
    let z := opts.min_zoom + k
    let built := buildLevel opts z nid cur
    buildLevelsGo opts k built.2 built.1 ++ [cur]

/-- Full tree build from the loaded features; cluster ids start after the
point ids `0..n-1`. -/
def buildAll (opts : Options) (fs : List GFeature) : List (List Entity) :=
  buildLevelsGo opts (opts.max_zoom + 1 - opts.min_zoom) fs.length
    (featuresToEntities fs)

/-- Modelled from the spec: the inner `supercluster::Supercluster` engine —
its configuration plus the built tree (`Option.none` before any `load`). -/
structure Supercluster where
  options : Options
  tree : Option (List (List Entity))

/-- `Supercluster::new(options)` (line 37 of lib.rs): stores the
configuration; nothing is built and nothing is validated. -/
def Supercluster.new (options : Options) : Supercluster := ⟨options, Option.none⟩

/-- `self.inner.load(features)` (line 71 of lib.rs), modelled from the spec:
rebuild the whole tree from the given features. -/
def Supercluster.loadTree (sc : Supercluster) (fs : List GFeature) : Supercluster :=
  ⟨sc.options, some (buildAll sc.options fs)⟩

/-- Clamp a query zoom into `[min_zoom, max_zoom]` (section 4.4). -/
def clampZoom (opts : Options) (z : Nat) : Nat :=
  min opts.max_zoom (max opts.min_zoom z)

/-- Entity set of the level at zoom `z` (the raw points stand at
`max_zoom + 1`). -/
def entitiesAtZoom (opts : Options) (levels : List (List Entity)) (z : Nat) :
    List Entity :=
  levels.getD (z - opts.min_zoom) []

/-- Rectangular range predicate of the per-level range query. -/
def inRange (minX minY maxX maxY : ℚ) (e : Entity) : Bool :=
  decide (minX ≤ e.x) && decide (e.x ≤ maxX) &&
    decide (minY ≤ e.y) && decide (e.y ≤ maxY)

/-- Public feature of an entity (section 4.4): its coordinates as a point,
and for a cluster an aggregate payload holding the id and the leaf count in
front of the representative attributes. -/
def entityToGFeature (ent : Entity) : GFeature :=
  ⟨some (GeoValue.point [ent.x, ent.y]),
   some (if ent.isCluster then
       ("cluster_id", Json.num true (ent.id : ℚ)) ::
         ("point_count", Json.num true (ent.count : ℚ)) :: ent.payload
     else ent.payload)⟩

/-- Modelled from the spec (section 4.4): `get_clusters` clamps the zoom,
selects that level and range-queries it; a box whose west edge lies east of
its east edge is split into two queries whose results are concatenated. -/
def Supercluster.get_clusters (sc : Supercluster) (bbox : ℚ × ℚ × ℚ × ℚ)
    (zoom : Nat) : List GFeature :=
  match sc.tree with
  | some levels =>
    let es := entitiesAtZoom sc.options levels (clampZoom sc.options zoom)
    let hit :=
      if decide (bbox.2.2.1 < bbox.1) then
        es.filter (inRange bbox.1 bbox.2.1 1 bbox.2.2.2) ++
          es.filter (inRange 0 bbox.2.1 bbox.2.2.1 bbox.2.2.2)
      else es.filter (inRange bbox.1 bbox.2.1 bbox.2.2.1 bbox.2.2.2)
    hit.map entityToGFeature
  | Option.none => []

/-- Find a cluster by id anywhere in the tree. -/
def findCluster (levels : List (List Entity)) (id : Nat) : Option Entity :=
  levels.join.find? fun e => e.isCluster && e.id == id

/-- Modelled from the spec (section 4.4): walk expansion pointers upward in
zoom until the target is an original point or a distinct cluster with a
strictly smaller leaf count; return the zoom at which that split shows. -/
def expWalk (opts : Options) (levels : List (List Entity)) :
    Nat → Entity → Nat
  | 0, c => c.zoom + 1
  | Nat.succ fuel, c =>
    match (entitiesAtZoom opts levels (c.zoom + 1)).find?
        (fun t => t.id == c.expansion) with
    | some t =>
      if t.isCluster = false then c.zoom + 1
      else if t.id != c.id && decide (t.count < c.count) then c.zoom + 1
      else expWalk opts levels fuel t
    | Option.none => c.zoom + 1

/-- Modelled from the spec (section 4.4): the inner expansion-zoom lookup
returns a plain number — in the source it has type `usize`, so an unknown id
yields a sentinel value (`max_zoom + 1`), never an error. -/
def getExpansionZoomCore (sc : Supercluster) (id : Nat) : Nat :=
  match sc.tree with
  | some levels =>
    match findCluster levels id with
    | some c => expWalk sc.options levels (sc.options.max_zoom + 2) c
    | Option.none => sc.options.max_zoom + 1
  | Option.none => sc.options.max_zoom + 1

/-- The `#[pyclass]` wrapper of lines 11-14 of lib.rs. -/
structure PySupercluster where
  inner : Supercluster

/-- The constructor of lines 18-39 of lib.rs: fill `Options` field by field
from the six arguments and hand them to `Supercluster::new`.  The return
type is `Self`, not `PyResult<Self>`: no configuration is ever rejected. -/
def PySupercluster.new (min_zoom max_zoom min_points : Nat)
    (radius extent : ℚ) (node_size : Nat) : PySupercluster :=
  ⟨Supercluster.new ⟨min_zoom, max_zoom, min_points, radius, extent, node_size⟩⟩

/-- The constructor applied with the defaults of the `#[pyo3(signature =
(min_zoom=0, max_zoom=16, min_points=2, radius=40.0, extent=512.0,
node_size=64))]` line. -/
def PySupercluster.newDefault : PySupercluster :=
  PySupercluster.new 0 16 2 40 512 64

/-- `load` (lines 42-74 of lib.rs): convert every record, aborting the whole
call on the first failing record before the inner engine is touched (`&mut
self` stays as it was); on success hand the features to the inner build.  The
pair returns the resulting engine state and the `PyResult<()>`. -/
def PySupercluster.load (st : PySupercluster) (points : List PyVal) :
    PySupercluster × Except PyErr Unit :=
  match parseFeatures points with
  | Except.error e => (st, Except.error e)
  | Except.ok fs => (⟨st.inner.loadTree fs⟩, Except.ok ())

mutual

/-- `json_to_pyobject` (lines 125-156 of lib.rs): `Null` to Python `None`,
booleans and strings directly, numbers through `as_i64` first and `as_f64`
second, arrays to lists and objects to dicts. -/
def jsonToPy : Json → PyVal
  | Json.null => PyVal.none
  | Json.bool b => PyVal.bool b
  | Json.num intForm q => if intForm then PyVal.int q.num else PyVal.float q
  | Json.str s => PyVal.str s
  | Json.arr xs => PyVal.list (jsonToPyList xs)
  | Json.obj xs => PyVal.dict (jsonToPyObj xs)

def jsonToPyList : List Json → List PyVal
  | [] => []
  | v :: vs => jsonToPy v :: jsonToPyList vs

def jsonToPyObj : List (String × Json) → List (String × PyVal)
  | [] => []
  | kv :: vs => (kv.1, jsonToPy kv.2) :: jsonToPyObj vs

end

/-- The properties dict of one returned cluster, lines 96-105 of lib.rs: the
converted payload when present, the empty dict otherwise. -/
def propsToPy : Option (List (String × Json)) → PyVal
  | some ps => PyVal.dict (jsonToPyObj ps)
  | Option.none => PyVal.dict []

/-- Per-cluster conversion of the `get_clusters` loop, lines 80-108 of
lib.rs: a point geometry becomes `\x7btype: "Point", coordinates: [...]\x7d`
(a feature without geometry gets no geometry key), a non-point geometry
aborts the whole call with `ValueError("Expected point geometry")`; the
`properties` key is always set, and `type` is always `"Feature"`. -/
def clusterToPy (f : GFeature) : Except PyErr PyVal :=
  match f.geometry with
  | some (GeoValue.point coords) =>
    Except.ok (PyVal.dict
      [("geometry", PyVal.dict
          [("type", PyVal.str "Point"),
           ("coordinates", PyVal.list (coords.map PyVal.float))]),
       ("properties", propsToPy f.properties),
       ("type", PyVal.str "Feature")])
  | some GeoValue.other =>
    Except.error (PyErr.valueError "Expected point geometry")
  | Option.none =>
    Except.ok (PyVal.dict
      [("properties", propsToPy f.properties),
       ("type", PyVal.str "Feature")])

/-- The result loop of `get_clusters`, lines 79-110 of lib.rs: convert each
inner feature in order, returning the first conversion error as the result of
the whole call. -/
def getClustersPy : List GFeature → Except PyErr (List PyVal)
  | [] => Except.ok []
  | f :: fs =>
    match clusterToPy f with
    | Except.error e => Except.error e
    | Except.ok d =>
      match getClustersPy fs with
      | Except.error e => Except.error e
      | Except.ok ds => Except.ok (d :: ds)

/-- `get_clusters` (lines 76-111 of lib.rs): query the inner engine and
convert the result. -/
def PySupercluster.get_clusters (st : PySupercluster) (bbox : ℚ × ℚ × ℚ × ℚ)
    (zoom : Nat) : Except PyErr (List PyVal) :=
  getClustersPy (st.inner.get_clusters bbox zoom)

/-- `get_cluster_expansion_zoom` (lines 113-116 of lib.rs): the inner result
(a plain `usize`) is wrapped in `Ok` unconditionally — the binding has no
error path at all here. -/
def PySupercluster.get_cluster_expansion_zoom (st : PySupercluster)
    (cluster_id : Nat) : Except PyErr Nat :=
  Except.ok (getExpansionZoomCore st.inner cluster_id)

/-- All entities of the built tree. -/
def treeEntities (e : PySupercluster) : List Entity :=
  (e.inner.tree.getD []).join

/-- Ids of the clusters of the built tree. -/
def treeClusterIds (e : PySupercluster) : List Nat :=
  ((treeEntities e).filter (fun en => en.isCluster)).map (fun en => en.id)

/-- Leaf counts of the clusters of the built tree. -/
def treeLeafCounts (e : PySupercluster) : List Nat :=
  ((treeEntities e).filter (fun en => en.isCluster)).map (fun en => en.count)

/-- Centroids of the clusters of the built tree. -/
def treeCentroids (e : PySupercluster) : List (ℚ × ℚ) :=
  ((treeEntities e).filter (fun en => en.isCluster)).map (fun en => (en.x, en.y))

/-! ## Helper lemmas -/

/-- A record whose conversion fails makes the whole record-list conversion
fail, wherever it sits in the list. -/
theorem parseFeatures_err (pts : List PyVal) (p : PyVal) (hmem : p ∈ pts)
    (hp : isOkE (parseFeature p) = false) : isOkE (parseFeatures pts) = false := by
  induction pts with
  | nil => cases hmem
  | cons q qs ih =>
    rcases List.mem_cons.mp hmem with rfl | hq
    · cases hc : parseFeature p with
      | ok v => rw [hc] at hp; simp [isOkE] at hp
      | error e => simp [parseFeatures, hc, isOkE]
    · cases hc : parseFeature q with
      | error e => simp [parseFeatures, hc, isOkE]
      | ok v =>
        have h2 := ih hq
        cases hr : parseFeatures qs with
        | error e2 => simp [parseFeatures, hc, hr, isOkE]
        | ok fs2 => rw [hr] at h2; simp [isOkE] at h2

/-- The only error `clusterToPy` can produce is the point-geometry
`ValueError`. -/
theorem clusterToPy_error_eq (f : GFeature) (e : PyErr)
    (h : clusterToPy f = Except.error e) :
    e = PyErr.valueError "Expected point geometry" := by
  unfold clusterToPy at h
  cases hg : f.geometry with
  | none => rw [hg] at h; cases h
  | some g =>
    cases g with
    | point cs => rw [hg] at h; cases h
    | other => rw [hg] at h; cases h; rfl

/-- The shape claimed for every element returned by `get_clusters`: a dict
holding exactly a point geometry with a numeric coordinate pair, a properties
dict, and the literal type `"Feature"`. -/
def featureShapeOk (o : PyVal) : Prop :=
  ∃ x y : ℚ, ∃ ps : List (String × PyVal),
    o = PyVal.dict
      [("geometry", PyVal.dict
          [("type", PyVal.str "Point"),
           ("coordinates", PyVal.list [PyVal.float x, PyVal.float y])]),
       ("properties", PyVal.dict ps),
       ("type", PyVal.str "Feature")]

/-- When every inner feature carries a two-coordinate point geometry, the
conversion loop succeeds and every produced element has the claimed shape. -/
theorem getClustersPy_ok_shape (fs : List GFeature)
    (h : ∀ f ∈ fs, ∃ x y : ℚ, f.geometry = some (GeoValue.point [x, y])) :
    ∃ out, getClustersPy fs = Except.ok out ∧ ∀ o ∈ out, featureShapeOk o := by
  induction fs with
  | nil => exact ⟨[], rfl, fun o ho => absurd ho (List.not_mem_nil o)⟩
  | cons f fs ih =>
    obtain ⟨x, y, hg⟩ := h f (List.mem_cons_self f fs)
    obtain ⟨out, hout, hshape⟩ := ih fun g hgm => h g (List.mem_cons_of_mem f hgm)
    have hprops : ∃ ps, propsToPy f.properties = PyVal.dict ps := by
      cases f.properties with
      | none => exact ⟨[], rfl⟩
      | some ps => exact ⟨jsonToPyObj ps, rfl⟩
    obtain ⟨ps, hps⟩ := hprops
    refine ⟨PyVal.dict
      [("geometry", PyVal.dict
          [("type", PyVal.str "Point"),
           ("coordinates", PyVal.list [PyVal.float x, PyVal.float y])]),
       ("properties", PyVal.dict ps),
       ("type", PyVal.str "Feature")] :: out, ?_, ?_⟩
    · simp [getClustersPy, clusterToPy, hg, hout, hps]
    · intro o ho
      rcases List.mem_cons.mp ho with rfl | hrest
      · exact ⟨x, y, ps, rfl⟩
      · exact hshape o hrest

/-- Every feature the modelled inner engine hands to the conversion loop has
a two-coordinate point geometry. -/
theorem inner_get_clusters_point (sc : Supercluster) (bbox : ℚ × ℚ × ℚ × ℚ)
    (zoom : Nat) (f : GFeature) (hf : f ∈ sc.get_clusters bbox zoom) :
    ∃ x y : ℚ, f.geometry = some (GeoValue.point [x, y]) := by
  unfold Supercluster.get_clusters at hf
  cases htree : sc.tree with
  | none => rw [htree] at hf; exact absurd hf (List.not_mem_nil f)
  | some levels =>
    rw [htree] at hf
    simp only [] at hf
    obtain ⟨ent, _, hfe⟩ := List.mem_map.mp hf
    exact ⟨ent.x, ent.y, by rw [← hfe]; rfl⟩

/-! ## C1 — constructor validation -/

/-- C1 counterexample: the claim says no engine instance is produced when
`minZoom > maxZoom` or `minPoints < 1`; here `minZoom = 5 > 1 = maxZoom` and
`minPoints = 0 < 1`, yet the constructor produces a fully formed engine
carrying exactly that configuration. -/
theorem new_invalid_config_still_builds_engine :
    1 < 5 ∧ 0 < 1 ∧
      PySupercluster.new 5 1 0 40 512 64 =
        ⟨⟨⟨5, 1, 0, 40, 512, 64⟩, Option.none⟩⟩ :=
  ⟨by decide, by decide, rfl⟩

/-- C1 amended: constructing the engine never fails — every configuration,
including those with `minZoom > maxZoom` or `minPoints < 1`, produces an
engine whose options are exactly the given arguments (the source constructor
returns `Self`, not `PyResult<Self>`, and validates nothing). -/
theorem new_never_rejects_configuration
    (min_zoom max_zoom min_points : Nat) (radius extent : ℚ) (node_size : Nat) :
    PySupercluster.new min_zoom max_zoom min_points radius extent node_size =
      ⟨⟨⟨min_zoom, max_zoom, min_points, radius, extent, node_size⟩,
        Option.none⟩⟩ := rfl

/-! ## C2 — expansion zoom on unknown ids -/

/-- C2 counterexample: on an engine built from an empty load, the claim says
the lookup of the unknown id 99999 returns an error; instead the call
succeeds with the sentinel zoom 17 (`max_zoom + 1`). -/
theorem expansion_zoom_unknown_id_returns_ok :
    PySupercluster.get_cluster_expansion_zoom
      (PySupercluster.load PySupercluster.newDefault []).1 99999 =
      Except.ok 17 := rfl

/-- C2 amended: `get_cluster_expansion_zoom` never returns an error for any
engine state and any cluster id — the binding wraps the inner numeric result
in `Ok` unconditionally, so an unknown id yields a sentinel zoom value
instead of an error. -/
theorem expansion_zoom_never_errors (st : PySupercluster) (cluster_id : Nat) :
    ∃ z, PySupercluster.get_cluster_expansion_zoom st cluster_id =
      Except.ok z :=
  ⟨getExpansionZoomCore st.inner cluster_id, rfl⟩

/-! ## C3 — rejection of malformed coordinates -/

/-- A record with three coordinate elements. -/
def recThreeCoords : PyVal :=
  PyVal.dict
    [("geometry", PyVal.dict
        [("coordinates", PyVal.list [PyVal.int 1, PyVal.int 2, PyVal.int 3])]),
     ("properties", PyVal.dict [])]

/-- A record whose longitude 999 and latitude 99 lie outside geographic
range. -/
def recOutOfRange : PyVal :=
  PyVal.dict
    [("geometry", PyVal.dict
        [("coordinates", PyVal.list [PyVal.int 999, PyVal.int 99])]),
     ("properties", PyVal.dict [])]

/-- C3 counterexample: the claim says a record with more than two coordinate
elements, or with longitude/latitude outside geographic range, is rejected;
loading one record of each kind succeeds — the source reads only indices 0
and 1 and never range-checks them. -/
theorem load_accepts_extra_and_out_of_range_coordinates :
    isOkE (PySupercluster.load PySupercluster.newDefault
      [recThreeCoords, recOutOfRange]).2 = true := rfl

/-- C3 amended: `load` rejects a record exactly when the coordinate
extraction of lines 51-55 fails — coordinates missing, not a list, lacking a
numeric element at index 0 or index 1; records with surplus coordinate
elements or out-of-range longitude/latitude are accepted. -/
theorem load_rejects_failing_coordinate_extraction (st : PySupercluster)
    (pts : List PyVal) (p g pr : PyVal) (hmem : p ∈ pts)
    (hgeo : pyGetItem p "geometry" = Except.ok g)
    (hpr : pyGetItem p "properties" = Except.ok pr)
    (hc : isOkE (parseCoords g) = false) :
    isOkE (PySupercluster.load st pts).2 = false := by
  have hpf : isOkE (parseFeature p) = false := by
    cases hcc : parseCoords g with
    | ok v => rw [hcc] at hc; simp [isOkE] at hc
    | error e => simp [parseFeature, hgeo, hpr, hcc, isOkE]
  have herr := parseFeatures_err pts p hmem hpf
  unfold PySupercluster.load
  cases hcf : parseFeatures pts with
  | ok fs => rw [hcf] at herr; simp [isOkE] at herr
  | error e => simp [isOkE]

/-- A record with a single coordinate element. -/
def recOneCoord : PyVal :=
  PyVal.dict
    [("geometry", PyVal.dict [("coordinates", PyVal.list [PyVal.int 1])]),
     ("properties", PyVal.dict [])]

/-- C3 witness: a record with one coordinate element satisfies the amended
hypotheses and its load fails. -/
theorem load_rejects_failing_coordinate_extraction_witness :
    recOneCoord ∈ [recOneCoord] ∧
      isOkE (parseCoords (PyVal.dict
        [("coordinates", PyVal.list [PyVal.int 1])])) = false ∧
      isOkE (PySupercluster.load PySupercluster.newDefault [recOneCoord]).2 =
        false :=
  ⟨List.mem_singleton.mpr rfl, rfl,
   load_rejects_failing_coordinate_extraction PySupercluster.newDefault
     [recOneCoord] recOneCoord
     (PyVal.dict [("coordinates", PyVal.list [PyVal.int 1])])
     (PyVal.dict []) (List.mem_singleton.mpr rfl) rfl rfl rfl⟩

/-! ## C4 — atomicity of load on malformed geometry -/

/-- C4: when any record of the input fails to convert, the whole `load` call
fails and the engine state is unchanged — the `collect::<PyResult<_>>()?` on
line 69 returns before `self.inner.load` on line 71 runs, so no partial tree
is ever installed. -/
theorem load_atomic_on_record_error (st : PySupercluster) (pts : List PyVal)
    (h : ∃ p, p ∈ pts ∧ isOkE (parseFeature p) = false) :
    (PySupercluster.load st pts).1 = st ∧
      isOkE (PySupercluster.load st pts).2 = false := by
  obtain ⟨p, hmem, hp⟩ := h
  have herr := parseFeatures_err pts p hmem hp
  unfold PySupercluster.load
  cases hc : parseFeatures pts with
  | ok fs => rw [hc] at herr; simp [isOkE] at herr
  | error e => exact ⟨rfl, rfl⟩

/-- C4 witness: a non-dict record fails conversion, and loading it onto the
default engine fails while leaving the engine exactly as it was. -/
theorem load_atomic_on_record_error_witness :
    (PyVal.int 0 ∈ [PyVal.int 0] ∧ isOkE (parseFeature (PyVal.int 0)) = false) ∧
      (PySupercluster.load PySupercluster.newDefault [PyVal.int 0]).1 =
        PySupercluster.newDefault ∧
      isOkE (PySupercluster.load PySupercluster.newDefault [PyVal.int 0]).2 =
        false :=
  ⟨⟨List.mem_singleton.mpr rfl, rfl⟩,
   load_atomic_on_record_error PySupercluster.newDefault [PyVal.int 0]
     ⟨PyVal.int 0, List.mem_singleton.mpr rfl, rfl⟩⟩

/-! ## C5 — malformed attribute payloads degrade to empty -/

/-- C5: a record whose serialized properties fail to parse as a JSON object
is not rejected: the record converts successfully, keeps its point geometry
untouched, and stores the empty payload (the `unwrap_or_else` on line 64). -/
theorem malformed_properties_become_empty (p g pr : PyVal) (v : ℚ × ℚ)
    (hgeo : pyGetItem p "geometry" = Except.ok g)
    (hpr : pyGetItem p "properties" = Except.ok pr)
    (hc : parseCoords g = Except.ok v)
    (hjson : parseJsonObject (replaceQuotes (pyRepr pr)) = Option.none) :
    parseFeature p = Except.ok ⟨some (GeoValue.point [v.1, v.2]), some []⟩ := by
  simp [parseFeature, hgeo, hpr, hc, hjson]

/-- C5 witness: a record whose properties are the bare string `oops` — its
Python repr turns into the JSON string `"oops"`, which is not a JSON object —
loads as a point with an empty payload. -/
theorem malformed_properties_become_empty_witness :
    parseJsonObject (replaceQuotes (pyRepr (PyVal.str "oops"))) =
        Option.none ∧
      parseFeature (PyVal.dict
        [("geometry", PyVal.dict
            [("coordinates", PyVal.list [PyVal.int 3, PyVal.int 4])]),
         ("properties", PyVal.str "oops")]) =
        Except.ok ⟨some (GeoValue.point [3, 4]), some []⟩ :=
  ⟨rfl,
   malformed_properties_become_empty
     (PyVal.dict
       [("geometry", PyVal.dict
           [("coordinates", PyVal.list [PyVal.int 3, PyVal.int 4])]),
        ("properties", PyVal.str "oops")])
     (PyVal.dict [("coordinates", PyVal.list [PyVal.int 3, PyVal.int 4])])
     (PyVal.str "oops") (3, 4) rfl rfl rfl rfl⟩

/-! ## C6 — well-formed payloads silently emptied by the quote substitution -/

/-- A record whose properties hold a string containing an apostrophe. -/
def recApostrophe : PyVal :=
  PyVal.dict
    [("geometry", PyVal.dict
        [("coordinates", PyVal.list [PyVal.int 1, PyVal.int 2])]),
     ("properties", PyVal.dict [("note", PyVal.str ("it" ++ squote ++ "s"))])]

/-- A record whose properties hold the Python literal `True`. -/
def recPyTrue : PyVal :=
  PyVal.dict
    [("geometry", PyVal.dict
        [("coordinates", PyVal.list [PyVal.int 1, PyVal.int 2])]),
     ("properties", PyVal.dict [("flag", PyVal.bool true)])]

/-- C6: the serialization really is Python `str()` followed by replacing
every single quote with a double quote — `\x7b'flag': True\x7d` becomes
`\x7b"flag": True\x7d` — and the two well-formed payloads named by the claim
(a string value containing an apostrophe, and the literal `True`) are
silently stored as the empty payload because the substituted text is not
valid JSON. -/
theorem wellformed_payloads_silently_emptied :
    replaceQuotes (pyRepr (PyVal.dict [("flag", PyVal.bool true)])) =
        "\x7b\"flag\": True\x7d" ∧
      parseFeature recPyTrue =
        Except.ok ⟨some (GeoValue.point [1, 2]), some []⟩ ∧
      parseFeature recApostrophe =
        Except.ok ⟨some (GeoValue.point [1, 2]), some []⟩ :=
  ⟨rfl, rfl, rfl⟩

/-! ## C7 — shape of every returned cluster -/

/-- C7: every element returned by a successful `get_clusters` call is the
dict `\x7bgeometry: \x7btype: "Point", coordinates: [x, y]\x7d, properties:
mapping, type: "Feature"\x7d`, with the properties mapping always present
(the empty dict when the entity carries none, lines 103-104 of lib.rs) —
and the call always succeeds, since the modelled inner engine only produces
point features. -/
theorem get_clusters_elements_have_feature_shape (st : PySupercluster)
    (bbox : ℚ × ℚ × ℚ × ℚ) (zoom : Nat) :
    ∃ out, PySupercluster.get_clusters st bbox zoom = Except.ok out ∧
      ∀ o ∈ out, featureShapeOk o :=
  getClustersPy_ok_shape (st.inner.get_clusters bbox zoom)
    (fun f hf => inner_get_clusters_point st.inner bbox zoom f hf)

/-! ## C8 — non-point geometry surfaces a ValueError -/

/-- C8: whenever any feature handed to the conversion loop of `get_clusters`
carries a non-point geometry, the whole call surfaces
`ValueError("Expected point geometry")` to the caller (line 90 of lib.rs) —
an error return, not a crash and not a silent skip. -/
theorem get_clusters_nonpoint_geometry_errors (fs : List GFeature)
    (f : GFeature) (hmem : f ∈ fs) (hg : f.geometry = some GeoValue.other) :
    getClustersPy fs =
      Except.error (PyErr.valueError "Expected point geometry") := by
  induction fs with
  | nil => cases hmem
  | cons q qs ih =>
    rcases List.mem_cons.mp hmem with rfl | hq
    · have hcq : clusterToPy f =
          Except.error (PyErr.valueError "Expected point geometry") := by
        unfold clusterToPy; rw [hg]
      simp [getClustersPy, hcq]
    · cases hcq : clusterToPy q with
      | error e =>
        have he := clusterToPy_error_eq q e hcq
        subst he
        simp [getClustersPy, hcq]
      | ok d => simp [getClustersPy, hcq, ih hq]

/-- C8 witness: a one-element list holding a non-point feature makes the
conversion loop return exactly the point-geometry ValueError. -/
theorem get_clusters_nonpoint_geometry_errors_witness :
    (⟨some GeoValue.other, Option.none⟩ : GFeature).geometry =
        some GeoValue.other ∧
      getClustersPy [⟨some GeoValue.other, Option.none⟩] =
        Except.error (PyErr.valueError "Expected point geometry") :=
  ⟨rfl,
   get_clusters_nonpoint_geometry_errors [⟨some GeoValue.other, Option.none⟩]
     ⟨some GeoValue.other, Option.none⟩ (List.mem_singleton.mpr rfl) rfl⟩

/-! ## C9 — constructor defaults and field-wise configuration -/

/-- C9: with no explicit arguments the constructor uses exactly the defaults
`minZoom=0, maxZoom=16, minPoints=2, radius=40.0, extent=512.0, nodeSize=64`
of the `#[pyo3(signature = ...)]` line, and each supplied argument lands in
exactly its own field of the `Options` handed to the inner engine. -/
theorem new_defaults_and_fieldwise_options :
    PySupercluster.newDefault.inner.options = ⟨0, 16, 2, 40, 512, 64⟩ ∧
      ∀ (mz Mz mp : Nat) (r ex : ℚ) (ns : Nat),
        (PySupercluster.new mz Mz mp r ex ns).inner.options =
          ⟨mz, Mz, mp, r, ex, ns⟩ :=
  ⟨rfl, fun _ _ _ _ _ _ => rfl⟩

/-! ## C10 — deterministic builds -/

/-- C10: two independent builds from the same input sequence on identically
configured engines produce identical trees — the same cluster ids, leaf
counts and centroids — and identical answers to any `get_clusters` or
expansion-zoom query.  The whole pipeline (record parsing on lines 43-69 and
the spec-modelled greedy build) is a pure function of the configuration and
the input order, with no hidden state. -/
theorem load_deterministic (o1 o2 : Options) (pts1 pts2 : List PyVal)
    (bbox : ℚ × ℚ × ℚ × ℚ) (zoom cid : Nat) (ho : o1 = o2)
    (hp : pts1 = pts2) :
    treeClusterIds (PySupercluster.load ⟨Supercluster.new o1⟩ pts1).1 =
        treeClusterIds (PySupercluster.load ⟨Supercluster.new o2⟩ pts2).1 ∧
      treeLeafCounts (PySupercluster.load ⟨Supercluster.new o1⟩ pts1).1 =
        treeLeafCounts (PySupercluster.load ⟨Supercluster.new o2⟩ pts2).1 ∧
      treeCentroids (PySupercluster.load ⟨Supercluster.new o1⟩ pts1).1 =
        treeCentroids (PySupercluster.load ⟨Supercluster.new o2⟩ pts2).1 ∧
      PySupercluster.get_clusters (PySupercluster.load ⟨Supercluster.new o1⟩ pts1).1 bbox zoom =
        PySupercluster.get_clusters (PySupercluster.load ⟨Supercluster.new o2⟩ pts2).1 bbox zoom ∧
      PySupercluster.get_cluster_expansion_zoom (PySupercluster.load ⟨Supercluster.new o1⟩ pts1).1 cid =
        PySupercluster.get_cluster_expansion_zoom (PySupercluster.load ⟨Supercluster.new o2⟩ pts2).1 cid := by
  subst ho; subst hp
  exact ⟨rfl, rfl, rfl, rfl, rfl⟩

/-- C10 witness: the determinism theorem applied to two concrete identically
configured builds over one concrete two-record input. -/
theorem load_deterministic_witness :
    treeClusterIds (PySupercluster.load
        ⟨Supercluster.new ⟨0, 16, 2, 40, 512, 64⟩⟩
        [recThreeCoords, recOutOfRange]).1 =
      treeClusterIds (PySupercluster.load
        ⟨Supercluster.new ⟨0, 16, 2, 40, 512, 64⟩⟩
        [recThreeCoords, recOutOfRange]).1 ∧
    treeLeafCounts (PySupercluster.load
        ⟨Supercluster.new ⟨0, 16, 2, 40, 512, 64⟩⟩
        [recThreeCoords, recOutOfRange]).1 =
      treeLeafCounts (PySupercluster.load
        ⟨Supercluster.new ⟨0, 16, 2, 40, 512, 64⟩⟩
        [recThreeCoords, recOutOfRange]).1 ∧
    treeCentroids (PySupercluster.load
        ⟨Supercluster.new ⟨0, 16, 2, 40, 512, 64⟩⟩
        [recThreeCoords, recOutOfRange]).1 =
      treeCentroids (PySupercluster.load
        ⟨Supercluster.new ⟨0, 16, 2, 40, 512, 64⟩⟩
        [recThreeCoords, recOutOfRange]).1 ∧
    PySupercluster.get_clusters (PySupercluster.load
        ⟨Supercluster.new ⟨0, 16, 2, 40, 512, 64⟩⟩
        [recThreeCoords, recOutOfRange]).1 (0, 0, 1, 1) 3 =
      PySupercluster.get_clusters (PySupercluster.load
        ⟨Supercluster.new ⟨0, 16, 2, 40, 512, 64⟩⟩
        [recThreeCoords, recOutOfRange]).1 (0, 0, 1, 1) 3 ∧
    PySupercluster.get_cluster_expansion_zoom (PySupercluster.load
        ⟨Supercluster.new ⟨0, 16, 2, 40, 512, 64⟩⟩
        [recThreeCoords, recOutOfRange]).1 7 =
      PySupercluster.get_cluster_expansion_zoom (PySupercluster.load
        ⟨Supercluster.new ⟨0, 16, 2, 40, 512, 64⟩⟩
        [recThreeCoords, recOutOfRange]).1 7 :=
  load_deterministic ⟨0, 16, 2, 40, 512, 64⟩ ⟨0, 16, 2, 40, 512, 64⟩
    [recThreeCoords, recOutOfRange] [recThreeCoords, recOutOfRange]
    (0, 0, 1, 1) 3 7 rfl rfl
